import Mathlib

/-!
# Payment handlers: USDT verification and M-Pesa STK push

A shallow embedding of the two HTTP handlers of the repository,
`api/verify-crypto.js` and `api/mpesa-callback.js`, and the properties of
their matching and error paths.

Modelling conventions.

* A JavaScript number is an exact rational (`ℚ`); a value that `ToNumber`
  turns into `NaN` (a missing `amount`, for instance) is `none` of `Option ℚ`,
  and every comparison with it is false, every product with it is `NaN`.
  Rounding of IEEE doubles and the infinities are outside the model.
* `await fetch(..)` followed by `await response.json()` is one external
  call.  The handler records each call it makes, in order, in `calls`; what the
  rail answers (a parsed reply, or an exception) is an input of the handler.
* A `try { .. } catch (error) { .. }` block is a function into `Except`
  whose `error` case the handler turns into the response of its `catch`.
* `console.log` and the three CORS headers, which every response carries, are
  left out.
-/

set_option autoImplicit false

/-- What a `catch (error)` block can receive. -/
inductive JsError where
  /-- The exception raised by `fetch` or by `response.json()`, with its message. -/
  | thrown (message : String)
  /-- The `TypeError` of reading property `property` of `undefined`. -/
  | typeError (property : String)
  deriving DecidableEq, Repr

/-- Rendering of a possibly undefined string inside a template literal. -/
def tmpl : Option String → String
  | some s => s
  | none => "undefined"

namespace VerifyCrypto

/-- One element of `data.token_transfers`, with the four fields the handler reads.
`quant` is the number `parseFloat(tx.quant)` returns. -/
structure Transfer where
  transaction_id : String
  quant : ℚ
  block_timestamp : ℚ
  from_address : String
  deriving DecidableEq

/-- The parsed reply of the TronScan lookup: `token_transfers` may be absent. -/
structure TronData where
  token_transfers : Option (List Transfer)

/-- The request: `req.method` and `req.body`, of which only `amount` is read
(`none` inside `body` is an `amount` that is not a number). -/
structure Request where
  method : String
  body : Option (Option ℚ)

/-- What the handler reads from outside the request. -/
structure World where
  /-- The value of `process.env.USDT_ADDRESS`. -/
  USDT_ADDRESS : Option String
  /-- The value of `Date.now()`, in milliseconds. -/
  now : ℚ
  /-- The outcome of `fetch(..)` and `response.json()`: an exception, or the
  parsed reply `data` (`none` when the reply is the JSON `null`). -/
  tronscan : Except JsError (Option TronData)

/-- The JSON bodies the handler sends. -/
inductive Body where
  /-- `res.status(200).end()`. -/
  | empty
  /-- `{success: true, transactionHash, amount, timestamp, from}`. -/
  | confirmed (transactionHash : String) (amount : ℚ) (timestamp : ℚ) (sender : String)
  /-- `{success: false, message: 'No matching transaction found'}`. -/
  | noMatch
  /-- `{success: false, error: error.message}`. -/
  | failed (error : JsError)
  deriving DecidableEq

/-- The `success` field of a body (absent from the empty body). -/
def Body.success : Body → Option Bool
  | .empty => none
  | .confirmed _ _ _ _ => some true
  | .noMatch => some false
  | .failed _ => some false

/-- The `message` field of a body. -/
def Body.message : Body → Option String
  | .noMatch => some "No matching transaction found"
  | _ => none

structure Response where
  status : Nat
  body : Body
  deriving DecidableEq

/-- The lookup the handler sends to TronScan: a GET of this URL. -/
structure Lookup where
  url : String
  deriving DecidableEq

structure Outcome where
  calls : List Lookup
  response : Response

/-- `process.env.USDT_ADDRESS || 'TK4r…'`. -/
def address (w : World) : String :=
  match w.USDT_ADDRESS with
  | some s => if s = "" then "TK4rUz6TUEd7zCWeuiX5R47pSNdPswJnAc" else s
  | none => "TK4rUz6TUEd7zCWeuiX5R47pSNdPswJnAc"

def lookupUrl (w : World) : String :=
  "https://apilist.tronscanapi.com/api/token_trc20/transfers?limit=20&start=0&toAddress="
    ++ address w ++ "&tokenAddress=TR7NHqjeKQxGTCi8q8ZY4pL8otSzgjLj6t"

/-- `Math.abs(receivedAmount - amount) < (amount * 0.01)`. -/
def withinTolerance (receivedAmount : ℚ) : Option ℚ → Bool
  | some amount => decide (|receivedAmount - amount| < amount * 0.01)
  | none => false

/-- The `for (let tx of data.token_transfers)` loop: the response of the first
`return` it reaches, or `none` when it runs to the end of the list. -/
def matchLoop (amount : Option ℚ) (thirtyMinutesAgo : ℚ) : List Transfer → Option Response
  | [] => none
  | tx :: rest =>
    if tx.block_timestamp > thirtyMinutesAgo then
      let receivedAmount := tx.quant / 1000000
      if withinTolerance receivedAmount amount then
        some ⟨200, .confirmed tx.transaction_id receivedAmount tx.block_timestamp tx.from_address⟩
      else matchLoop amount thirtyMinutesAgo rest
    else matchLoop amount thirtyMinutesAgo rest

/-- The statements after the lookup: the guarded loop, then the fall-through answer. -/
def answer (amount : Option ℚ) (now : ℚ) (data : TronData) : Response :=
  let found :=
    match data.token_transfers with
    | some txs =>
      if txs.length > 0 then
        let thirtyMinutesAgo := now - (30 * 60 * 1000)
        matchLoop amount thirtyMinutesAgo txs
      else none
    | none => none
  match found with
  | some r => r
  | none => ⟨200, .noMatch⟩

/-- The body of the `try` block. -/
def tryBlock (req : Request) (w : World) : List Lookup × Except JsError Response :=
  match req.body with
  | none => ([], .error (.typeError "amount"))
  | some amount =>
    match w.tronscan with
    | .error e => ([⟨lookupUrl w⟩], .error e)
    | .ok none => ([⟨lookupUrl w⟩], .error (.typeError "token_transfers"))
    | .ok (some data) => ([⟨lookupUrl w⟩], .ok (answer amount w.now data))

/-- The exported handler. -/
def handler (req : Request) (w : World) : Outcome :=
  if req.method = "OPTIONS" then ⟨[], ⟨200, .empty⟩⟩
  else
    match tryBlock req w with
    | (calls, .ok r) => ⟨calls, r⟩
    | (calls, .error e) => ⟨calls, ⟨500, .failed e⟩⟩

/-- The two tests a transfer passes to be returned: inside the window that
starts at `thirtyMinutesAgo`, and inside the tolerance around `amount`. -/
def passes (amount : Option ℚ) (thirtyMinutesAgo : ℚ) (tx : Transfer) : Prop :=
  tx.block_timestamp > thirtyMinutesAgo ∧ withinTolerance (tx.quant / 1000000) amount = true

/-- The success response that describes transfer `tx`. -/
def confirmation (tx : Transfer) : Response :=
  ⟨200, .confirmed tx.transaction_id (tx.quant / 1000000) tx.block_timestamp tx.from_address⟩

/-- The transfers the loop runs over: none when the field is missing. -/
def transfersOf (data : TronData) : List Transfer :=
  match data.token_transfers with
  | some txs => txs
  | none => []

end VerifyCrypto

namespace Math

/-- `Math.round`: the integer closest to `x`, the one closer to `+∞` when two
are equally close. -/
def round (x : ℚ) : ℤ :=
  if x - ⌊x⌋ < 1 / 2 then ⌊x⌋ else ⌊x⌋ + 1

end Math

namespace MpesaCallback

/-- The reply of the M-Pesa rail to an STK push or to a status query, relayed as it is. -/
structure RailJson where
  text : String
  deriving DecidableEq

/-- The parsed reply of the OAuth endpoint. -/
structure TokenData where
  access_token : Option String

/-- A `Value` of a callback item: a number or a string. -/
inductive JsValue where
  | num (q : ℚ)
  | str (s : String)
  deriving DecidableEq

/-- One element of `CallbackMetadata.Item`. -/
structure CallbackItem where
  Name : Option String
  Value : Option JsValue

structure CallbackMetadata where
  Item : Option (List CallbackItem)

/-- The object `req.body.Body.stkCallback`. -/
structure StkCallback where
  ResultCode : Option ℤ
  CallbackMetadata : Option CallbackMetadata

/-- The object `req.body.Body`. -/
structure Envelope where
  stkCallback : Option StkCallback

/-- The fields of `req.body` the handler reads; `amount` is `ToNumber(amount)`,
`none` when that is `NaN`. -/
structure RequestBody where
  action : Option String
  phoneNumber : Option String
  amount : Option ℚ
  accountReference : Option String
  checkoutRequestID : Option String
  Body : Option Envelope

structure Request where
  method : String
  body : Option RequestBody

/-- What the handler reads from outside the request. -/
structure World where
  MPESA_CONSUMER_KEY : Option String
  MPESA_CONSUMER_SECRET : Option String
  MPESA_PASSKEY : Option String
  MPESA_SHORTCODE : Option String
  VERCEL_URL : Option String
  /-- `Buffer.from(s).toString('base64')`. -/
  base64 : String → String
  /-- `new Date().toISOString()`. -/
  isoNow : String
  /-- The outcome of the OAuth request (`none`: the reply is the JSON `null`). -/
  tokenReply : Except JsError (Option TokenData)
  /-- The outcome of the STK push request. -/
  pushReply : Except JsError RailJson
  /-- The outcome of the status query. -/
  queryReply : Except JsError RailJson

/-- `BASE_URL`, which is `MPESA_CONFIG.SANDBOX_URL`. -/
def BASE_URL : String := "https://sandbox.safaricom.co.ke"

/-- The JSON body of the STK push request (`Amount` is `null` when `amountKES` is `NaN`). -/
structure StkPushBody where
  BusinessShortCode : Option String
  Password : String
  Timestamp : String
  TransactionType : String
  Amount : Option ℤ
  PartyA : Option String
  PartyB : Option String
  PhoneNumber : Option String
  CallBackURL : String
  AccountReference : Option String
  TransactionDesc : String
  deriving DecidableEq

/-- The JSON body of the status query. -/
structure StkQueryBody where
  BusinessShortCode : Option String
  Password : String
  Timestamp : String
  CheckoutRequestID : Option String
  deriving DecidableEq

/-- The external calls of this module. -/
inductive Call where
  | token (url : String) (authorization : String)
  | stkPush (url : String) (authorization : String) (body : StkPushBody)
  | stkQuery (url : String) (authorization : String) (body : StkQueryBody)
  deriving DecidableEq

/-- The JSON bodies the handler sends. -/
inductive Body where
  /-- `res.status(200).end()`. -/
  | empty
  /-- `res.status(200).json(result)`. -/
  | relay (result : RailJson)
  /-- `{ResultCode: 0, ResultDesc: 'Success'}`. -/
  | ack
  /-- `{error: 'Invalid request'}`. -/
  | invalid
  /-- `{error: 'Payment processing failed', details: error.message}`. -/
  | failed (details : JsError)
  deriving DecidableEq

/-- The `ResultCode` field of a body the handler builds itself. -/
def Body.ResultCode : Body → Option ℤ
  | .ack => some 0
  | _ => none

/-- The `error` field of a body the handler builds itself. -/
def Body.error : Body → Option String
  | .invalid => some "Invalid request"
  | .failed _ => some "Payment processing failed"
  | _ => none

structure Response where
  status : Nat
  body : Body
  deriving DecidableEq

structure Outcome where
  calls : List Call
  response : Response

/-- `new Date().toISOString().replace(/[^0-9]/g, '').slice(0, -3)`. -/
def timestamp (w : World) : String :=
  let digits := w.isoNow.toList.filter Char.isDigit
  String.mk (digits.take (digits.length - 3))

/-- The base64 of shortcode, passkey and timestamp. -/
def password (w : World) : String :=
  w.base64 (tmpl w.MPESA_SHORTCODE ++ tmpl w.MPESA_PASSKEY ++ timestamp w)

def tokenCall (w : World) : Call :=
  .token (BASE_URL ++ "/oauth/v1/generate?grant_type=client_credentials")
    ("Basic " ++ w.base64 (tmpl w.MPESA_CONSUMER_KEY ++ ":" ++ tmpl w.MPESA_CONSUMER_SECRET))

/-- `getMpesaToken`: one call, then `data.access_token`. -/
def getMpesaToken (w : World) : List Call × Except JsError (Option String) :=
  match w.tokenReply with
  | .error e => ([tokenCall w], .error e)
  | .ok none => ([tokenCall w], .error (.typeError "access_token"))
  | .ok (some data) => ([tokenCall w], .ok data.access_token)

/-- `const amountKES = Math.round(amount * 130)`. -/
def amountKES (amount : Option ℚ) : Option ℤ :=
  amount.map (fun a => Math.round (a * 130))

/-- The body `initiateStkPush` posts. -/
def stkPushBody (w : World) (phoneNumber : Option String) (amount : Option ℚ)
    (accountReference : Option String) : StkPushBody :=
  { BusinessShortCode := w.MPESA_SHORTCODE
    Password := password w
    Timestamp := timestamp w
    TransactionType := "CustomerPayBillOnline"
    Amount := amountKES amount
    PartyA := phoneNumber
    PartyB := w.MPESA_SHORTCODE
    PhoneNumber := phoneNumber
    CallBackURL := "https://" ++ tmpl w.VERCEL_URL ++ "/api/mpesa-callback"
    AccountReference := accountReference
    TransactionDesc := "CryptoPro Deposit" }

/-- `initiateStkPush`: the token, then the push. -/
def initiateStkPush (w : World) (phoneNumber : Option String) (amount : Option ℚ)
    (accountReference : Option String) : List Call × Except JsError RailJson :=
  match getMpesaToken w with
  | (calls, .error e) => (calls, .error e)
  | (calls, .ok token) =>
    (calls ++ [.stkPush (BASE_URL ++ "/mpesa/stkpush/v1/processrequest")
        ("Bearer " ++ tmpl token) (stkPushBody w phoneNumber amount accountReference)],
      w.pushReply)

/-- `queryStkStatus`: the token, then the query. -/
def queryStkStatus (w : World) (checkoutRequestID : Option String) :
    List Call × Except JsError RailJson :=
  match getMpesaToken w with
  | (calls, .error e) => (calls, .error e)
  | (calls, .ok token) =>
    (calls ++ [.stkQuery (BASE_URL ++ "/mpesa/stkpushquery/v1/query")
        ("Bearer " ++ tmpl token)
        { BusinessShortCode := w.MPESA_SHORTCODE
          Password := password w
          Timestamp := timestamp w
          CheckoutRequestID := checkoutRequestID }],
      w.queryReply)

/-- `items.find(item => item.Name === name).Value`. -/
def findValue (items : List CallbackItem) (name : String) : Except JsError (Option JsValue) :=
  match items.find? (fun item => decide (item.Name = some name)) with
  | some item => .ok item.Value
  | none => .error (.typeError "Value")

/-- The four reads of the branch `callback.ResultCode === 0`: `amountPaid`,
`mpesaRef` and `phoneNumber`, which are only logged. -/
def readMetadata (callback : StkCallback) :
    Except JsError (Option JsValue × Option JsValue × Option JsValue) :=
  match callback.CallbackMetadata with
  | none => .error (.typeError "Item")
  | some metadata =>
    match metadata.Item with
    | none => .error (.typeError "find")
    | some items =>
      match findValue items "Amount" with
      | .error e => .error e
      | .ok amountPaid =>
        match findValue items "MpesaReceiptNumber" with
        | .error e => .error e
        | .ok mpesaRef =>
          match findValue items "PhoneNumber" with
          | .error e => .error e
          | .ok phoneNumber => .ok (amountPaid, mpesaRef, phoneNumber)

/-- The branch `if (req.body.Body && req.body.Body.stkCallback)`. -/
def callbackBranch (callback : StkCallback) : Except JsError Response :=
  if callback.ResultCode = some 0 then
    match readMetadata callback with
    | .error e => .error e
    | .ok _ => .ok ⟨200, .ack⟩
  else .ok ⟨200, .ack⟩

/-- The body of the `try` block. -/
def tryBlock (req : Request) (w : World) : List Call × Except JsError Response :=
  if req.method = "POST" then
    match req.body with
    | none => ([], .error (.typeError "action"))
    | some b =>
      if b.action = some "initiate" then
        match initiateStkPush w b.phoneNumber b.amount b.accountReference with
        | (calls, .error e) => (calls, .error e)
        | (calls, .ok result) => (calls, .ok ⟨200, .relay result⟩)
      else if b.action = some "query" then
        match queryStkStatus w b.checkoutRequestID with
        | (calls, .error e) => (calls, .error e)
        | (calls, .ok result) => (calls, .ok ⟨200, .relay result⟩)
      else
        match b.Body with
        | none => ([], .ok ⟨400, .invalid⟩)
        | some envelope =>
          match envelope.stkCallback with
          | none => ([], .ok ⟨400, .invalid⟩)
          | some callback => ([], callbackBranch callback)
  else ([], .ok ⟨400, .invalid⟩)

/-- The exported handler. -/
def handler (req : Request) (w : World) : Outcome :=
  if req.method = "OPTIONS" then ⟨[], ⟨200, .empty⟩⟩
  else
    match tryBlock req w with
    | (calls, .ok r) => ⟨calls, r⟩
    | (calls, .error e) => ⟨calls, ⟨500, .failed e⟩⟩

end MpesaCallback

/-! ## The matching loop of the USDT verification handler -/

namespace VerifyCrypto

theorem withinTolerance_some (r a : ℚ) :
    withinTolerance r (some a) = true ↔ |r - a| < 0.01 * a := by
  simp [withinTolerance, mul_comm]

theorem matchLoop_cons_of_passes {amount : Option ℚ} {t : ℚ} {tx : Transfer}
    (rest : List Transfer) (h : passes amount t tx) :
    matchLoop amount t (tx :: rest) = some (confirmation tx) := by
  obtain ⟨h1, h2⟩ := h
  simp [matchLoop, h1, h2, confirmation]

theorem matchLoop_cons_of_not_passes {amount : Option ℚ} {t : ℚ} {tx : Transfer}
    (rest : List Transfer) (h : ¬ passes amount t tx) :
    matchLoop amount t (tx :: rest) = matchLoop amount t rest := by
  unfold passes at h
  by_cases h1 : tx.block_timestamp > t
  · have h2 : withinTolerance (tx.quant / 1000000) amount = false := by
      cases hw : withinTolerance (tx.quant / 1000000) amount
      · rfl
      · exact absurd ⟨h1, hw⟩ h
    simp [matchLoop, h1, h2]
  · simp [matchLoop, h1]

/-- The loop returns nothing exactly when no transfer passes both tests. -/
theorem matchLoop_eq_none_iff (amount : Option ℚ) (t : ℚ) (txs : List Transfer) :
    matchLoop amount t txs = none ↔ ∀ tx ∈ txs, ¬ passes amount t tx := by
  induction txs with
  | nil => simp [matchLoop]
  | cons tx rest ih =>
    by_cases h : passes amount t tx
    · rw [matchLoop_cons_of_passes rest h]
      constructor
      · intro hc
        cases hc
      · intro hall
        exact absurd h (hall tx (List.mem_cons_self _ _))
    · rw [matchLoop_cons_of_not_passes rest h, ih]
      constructor
      · intro hall x hx
        rcases List.mem_cons.mp hx with rfl | hx
        · exact h
        · exact hall x hx
      · intro hall x hx
        exact hall x (List.mem_cons_of_mem _ hx)

/-- The loop returns the description of the first transfer, in list order,
that passes both tests. -/
theorem matchLoop_eq_some_iff (amount : Option ℚ) (t : ℚ) (txs : List Transfer) (r : Response) :
    matchLoop amount t txs = some r ↔
      ∃ pre tx post, txs = pre ++ tx :: post ∧ (∀ x ∈ pre, ¬ passes amount t x) ∧
        passes amount t tx ∧ r = confirmation tx := by
  induction txs with
  | nil =>
    constructor
    · intro h
      simp [matchLoop] at h
    · rintro ⟨pre, tx, post, h, -⟩
      simp at h
  | cons y rest ih =>
    by_cases h : passes amount t y
    · rw [matchLoop_cons_of_passes rest h]
      constructor
      · intro hr
        refine ⟨[], y, rest, rfl, ?_, h, ?_⟩
        · intro x hx
          cases hx
        · exact (Option.some.inj hr).symm
      · rintro ⟨pre, tx, post, hsplit, hpre, -, hr⟩
        cases pre with
        | nil =>
          simp only [List.nil_append, List.cons.injEq] at hsplit
          rw [hr, ← hsplit.1]
        | cons p pre =>
          simp only [List.cons_append, List.cons.injEq] at hsplit
          exact absurd h (hsplit.1 ▸ hpre p (List.mem_cons_self _ _))
    · rw [matchLoop_cons_of_not_passes rest h, ih]
      constructor
      · rintro ⟨pre, tx, post, hsplit, hpre, htx, hr⟩
        refine ⟨y :: pre, tx, post, by simp [hsplit], ?_, htx, hr⟩
        intro x hx
        rcases List.mem_cons.mp hx with rfl | hx
        · exact h
        · exact hpre x hx
      · rintro ⟨pre, tx, post, hsplit, hpre, htx, hr⟩
        cases pre with
        | nil =>
          simp only [List.nil_append, List.cons.injEq] at hsplit
          exact absurd (hsplit.1 ▸ htx) h
        | cons p pre =>
          simp only [List.cons_append, List.cons.injEq] at hsplit
          exact ⟨pre, tx, post, hsplit.2, fun x hx => hpre x (List.mem_cons_of_mem _ hx), htx, hr⟩

/-- After a successful lookup the answer is what the loop finds in the list,
and the fall-through answer when it finds nothing. -/
theorem answer_eq (amount : Option ℚ) (now : ℚ) (data : TronData) :
    answer amount now data =
      match matchLoop amount (now - 1800000) (transfersOf data) with
      | some r => r
      | none => ⟨200, .noMatch⟩ := by
  have h18 : now - (30 * 60 * 1000 : ℚ) = now - 1800000 := by norm_num
  unfold answer transfersOf
  cases htx : data.token_transfers with
  | none => simp [matchLoop]
  | some txs =>
    cases txs with
    | nil => simp [matchLoop]
    | cons tx rest => simp [h18]

/-- A request that passes the `OPTIONS` test and carries a body, on a lookup
that returns data, is answered by `answer`, after one lookup. -/
theorem handler_of_data (method : String) (amount : Option ℚ) (w : World) (data : TronData)
    (hm : method ≠ "OPTIONS") (hw : w.tronscan = .ok (some data)) :
    handler ⟨method, some amount⟩ w = ⟨[⟨lookupUrl w⟩], answer amount w.now data⟩ := by
  simp [handler, tryBlock, hm, hw]

end VerifyCrypto

/-! ## The USDT verification handler -/

namespace VerifyCrypto

/-- Every response of the handler is the empty one, the one of the `catch`
block, the fall-through one, or the one the loop returned. -/
theorem handler_response_cases (req : Request) (w : World) :
    (handler req w).response = ⟨200, .empty⟩ ∨
    (∃ e, (handler req w).response = ⟨500, .failed e⟩) ∨
    (handler req w).response = ⟨200, .noMatch⟩ ∨
    (∃ amount data, req.method ≠ "OPTIONS" ∧ req.body = some amount ∧
      w.tronscan = .ok (some data) ∧
      matchLoop amount (w.now - 1800000) (transfersOf data) = some (handler req w).response) := by
  obtain ⟨method, body⟩ := req
  by_cases hm : method = "OPTIONS"
  · left
    simp [handler, hm]
  · cases body with
    | none =>
      right; left
      exact ⟨.typeError "amount", by simp [handler, tryBlock, hm]⟩
    | some amount =>
      cases hw : w.tronscan with
      | error e =>
        right; left
        exact ⟨e, by simp [handler, tryBlock, hm, hw]⟩
      | ok od =>
        cases od with
        | none =>
          right; left
          exact ⟨.typeError "token_transfers", by simp [handler, tryBlock, hm, hw]⟩
        | some data =>
          rw [handler_of_data method amount w data hm hw, answer_eq]
          cases hl : matchLoop amount (w.now - 1800000) (transfersOf data) with
          | none =>
            right; right; left
            rfl
          | some r =>
            right; right; right
            exact ⟨amount, data, hm, rfl, rfl, hl⟩

/-- A body with `success: true` is a confirmation. -/
theorem success_true_iff (b : Body) :
    b.success = some true ↔ ∃ h amt ts s, b = .confirmed h amt ts s := by
  cases b <;> simp [Body.success]

end VerifyCrypto

namespace VerifyCrypto

end VerifyCrypto

namespace VerifyCrypto

/-- A transfer the loop returned for the window that starts at `t1` is returned
again for every later window that still contains it. -/
theorem matchLoop_later (amount : Option ℚ) (t1 t2 : ℚ) (txs : List Transfer) (r : Response)
    (h12 : t1 ≤ t2) (h1 : matchLoop amount t1 txs = some r)
    (hin : ∀ h amt ts s, r.body = .confirmed h amt ts s → ts > t2) :
    matchLoop amount t2 txs = some r := by
  rw [matchLoop_eq_some_iff] at h1 ⊢
  obtain ⟨pre, tx, post, hsplit, hpre, htx, hr⟩ := h1
  refine ⟨pre, tx, post, hsplit, ?_, ?_, hr⟩
  · intro x hx hp
    exact hpre x hx ⟨lt_of_le_of_lt h12 hp.1, hp.2⟩
  · refine ⟨hin tx.transaction_id (tx.quant / 1000000) tx.block_timestamp tx.from_address ?_,
      htx.2⟩
    rw [hr]
    rfl

/-- C3, as stated, fails: the handler keeps no record of what it confirmed.  A
second request with the same amount against the same transfer list is answered
`success: true` with the same transactionHash as the first. -/
theorem no_second_confirmation_refuted :
    ¬ ∀ (amount : ℚ) (w : World) (now2 : ℚ) (h : String) (amt ts : ℚ) (s : String),
        (handler ⟨"POST", some (some amount)⟩ w).response.body = .confirmed h amt ts s →
        w.now ≤ now2 →
        ∀ amt2 ts2 s2, (handler ⟨"POST", some (some amount)⟩ ⟨w.USDT_ADDRESS, now2, w.tronscan⟩).response.body ≠
          .confirmed h amt2 ts2 s2 := by
  intro hall
  have h1 : (handler ⟨"POST", some (some 100)⟩
      ⟨none, 1800000, .ok (some ⟨some [⟨"tx1", 100000000, 1000, "payer"⟩]⟩)⟩).response.body =
      .confirmed "tx1" (100000000 / 1000000) 1000 "payer" := by
    rw [handler_of_data "POST" (some 100) _ ⟨some [⟨"tx1", 100000000, 1000, "payer"⟩]⟩
      (by decide) rfl]
    norm_num [answer, matchLoop, withinTolerance]
  exact hall 100 ⟨none, 1800000, .ok (some ⟨some [⟨"tx1", 100000000, 1000, "payer"⟩]⟩)⟩
    1800000 "tx1" _ 1000 "payer" h1 (le_refl _) _ _ _ h1

/-- C3, amended: the handler is stateless, so replayed evidence confirms again.
If a request is answered `success: true` with a transfer of timestamp `ts`, a
second request with the same amount against the same transfer list at a later
time `now2`, while `ts > now2 - 1800000`, gets the very same response (same
transactionHash, amount, timestamp and sender). -/
theorem replay_confirms_again (req : Request) (w : World) (now2 : ℚ) (h : String)
    (amt ts : ℚ) (s : String) (hnow : w.now ≤ now2)
    (h1 : (handler req w).response.body = .confirmed h amt ts s)
    (hts : ts > now2 - 1800000) :
    (handler req ⟨w.USDT_ADDRESS, now2, w.tronscan⟩).response = (handler req w).response := by
  rcases handler_response_cases req w with hc | ⟨e, hc⟩ | hc | ⟨amount, data, hm, hb, hw, hl⟩
  · rw [hc] at h1
    cases h1
  · rw [hc] at h1
    cases h1
  · rw [hc] at h1
    cases h1
  · obtain ⟨method, body⟩ := req
    simp only at hm hb
    subst hb
    have h2 := matchLoop_later amount (w.now - 1800000) (now2 - 1800000) (transfersOf data)
      (handler ⟨method, some amount⟩ w).response (by linarith) hl (by
        intro h' amt' ts' s' hb'
        rw [h1] at hb'
        cases hb'
        exact hts)
    rw [handler_of_data method amount ⟨w.USDT_ADDRESS, now2, w.tronscan⟩ data hm hw, answer_eq, h2]

theorem replay_confirms_again_witness :
    ((1800000 : ℚ) ≤ 1800500 ∧
      (handler ⟨"POST", some (some 100)⟩
        ⟨none, 1800000, .ok (some ⟨some [⟨"tx1", 100000000, 1000, "payer"⟩]⟩)⟩).response.body =
        .confirmed "tx1" (100000000 / 1000000) 1000 "payer" ∧
      (1000 : ℚ) > 1800500 - 1800000) ∧
    (handler ⟨"POST", some (some 100)⟩
      ⟨none, 1800500, .ok (some ⟨some [⟨"tx1", 100000000, 1000, "payer"⟩]⟩)⟩).response =
    (handler ⟨"POST", some (some 100)⟩
      ⟨none, 1800000, .ok (some ⟨some [⟨"tx1", 100000000, 1000, "payer"⟩]⟩)⟩).response :=
  have h1 : (handler ⟨"POST", some (some 100)⟩
      ⟨none, 1800000, .ok (some ⟨some [⟨"tx1", 100000000, 1000, "payer"⟩]⟩)⟩).response.body =
      .confirmed "tx1" (100000000 / 1000000) 1000 "payer" := by
    rw [handler_of_data "POST" (some 100) _ ⟨some [⟨"tx1", 100000000, 1000, "payer"⟩]⟩
      (by decide) rfl]
    norm_num [answer, matchLoop, withinTolerance]
  ⟨⟨by norm_num, h1, by norm_num⟩,
    replay_confirms_again ⟨"POST", some (some 100)⟩
      ⟨none, 1800000, .ok (some ⟨some [⟨"tx1", 100000000, 1000, "payer"⟩]⟩)⟩ 1800500
      "tx1" (100000000 / 1000000) 1000 "payer" (by norm_num) h1 (by norm_num)⟩

/-- C7: a failure of the lookup is caught and never confirms.  For every request
that reaches the `try` block, when `fetch` or `response.json()` throws, the
handler returns a response with status 500 whose `success` field is false; when
the request has a body, the response carries the error that was thrown. -/
theorem lookup_failure_is_caught (req : Request) (w : World) (e : JsError)
    (hm : req.method ≠ "OPTIONS") (hw : w.tronscan = .error e) :
    (handler req w).response.status = 500 ∧
    (handler req w).response.body.success = some false ∧
    (handler req w).response.body.success ≠ some true ∧
    (∀ amount, req.body = some amount →
      (handler req w).calls = [⟨lookupUrl w⟩] ∧
      (handler req w).response = ⟨500, .failed e⟩) := by
  obtain ⟨method, body⟩ := req
  simp only at hm
  cases body with
  | none => simp [handler, tryBlock, hm, Body.success]
  | some amount => simp [handler, tryBlock, hm, hw, Body.success]

theorem lookup_failure_is_caught_witness :
    ("POST" ≠ "OPTIONS") ∧
    (handler ⟨"POST", some (some 100)⟩
      ⟨none, 1800000, .error (.thrown "network")⟩).response.status = 500 ∧
    (handler ⟨"POST", some (some 100)⟩
      ⟨none, 1800000, .error (.thrown "network")⟩).response.body.success = some false ∧
    (handler ⟨"POST", some (some 100)⟩
      ⟨none, 1800000, .error (.thrown "network")⟩).response.body.success ≠ some true ∧
    (∀ amount, (⟨"POST", some (some 100)⟩ : Request).body = some amount →
      (handler ⟨"POST", some (some 100)⟩ ⟨none, 1800000, .error (.thrown "network")⟩).calls =
        [⟨lookupUrl ⟨none, 1800000, .error (.thrown "network")⟩⟩] ∧
      (handler ⟨"POST", some (some 100)⟩ ⟨none, 1800000, .error (.thrown "network")⟩).response =
        ⟨500, .failed (.thrown "network")⟩) :=
  ⟨by decide,
    lookup_failure_is_caught ⟨"POST", some (some 100)⟩
      ⟨none, 1800000, .error (.thrown "network")⟩ (.thrown "network") (by decide) rfl⟩

end VerifyCrypto

namespace VerifyCrypto

/-- C8: only transfers of the last 30 minutes can confirm.  Whenever the handler
answers `success: true`, the lookup returned a list, and the response describes
a transfer of that list whose `block_timestamp` is `> now - 1800000`; so the
returned timestamp is never `<= now - 1800000`, whatever the amount. -/
theorem only_recent_transfers_confirm (req : Request) (w : World)
    (hs : (handler req w).response.body.success = some true) :
    ∃ data txs tx, w.tronscan = .ok (some data) ∧ data.token_transfers = some txs ∧ tx ∈ txs ∧
      tx.block_timestamp > w.now - 1800000 ∧
      (handler req w).response.body =
        .confirmed tx.transaction_id (tx.quant / 1000000) tx.block_timestamp tx.from_address ∧
      ∀ h amt ts s, (handler req w).response.body = .confirmed h amt ts s →
        ¬ ts ≤ w.now - 1800000 := by
  rcases handler_response_cases req w with hc | ⟨e, hc⟩ | hc | ⟨amount, data, -, -, hw, hl⟩
  · rw [hc] at hs
    cases hs
  · rw [hc] at hs
    cases hs
  · rw [hc] at hs
    cases hs
  · rw [matchLoop_eq_some_iff] at hl
    obtain ⟨pre, tx, post, hsplit, -, htx, hr⟩ := hl
    cases hd : data.token_transfers with
    | none =>
      simp [transfersOf, hd] at hsplit
    | some txs =>
      simp only [transfersOf, hd] at hsplit
      refine ⟨data, txs, tx, hw, hd, by simp [hsplit], htx.1, by rw [hr]; rfl, ?_⟩
      intro h amt ts s hb
      rw [hr] at hb
      cases hb
      exact not_le.mpr htx.1

theorem only_recent_transfers_confirm_witness :
    (handler ⟨"POST", some (some 100)⟩
      ⟨none, 1800000, .ok (some ⟨some [⟨"old", 100000000, 0, "early"⟩,
        ⟨"tx1", 100000000, 1000, "payer"⟩]⟩)⟩).response.body.success = some true ∧
    ∃ data txs tx,
      (⟨none, 1800000, .ok (some ⟨some [⟨"old", 100000000, 0, "early"⟩,
        ⟨"tx1", 100000000, 1000, "payer"⟩]⟩)⟩ : World).tronscan = .ok (some data) ∧
      data.token_transfers = some txs ∧ tx ∈ txs ∧
      tx.block_timestamp > (1800000 : ℚ) - 1800000 ∧
      (handler ⟨"POST", some (some 100)⟩
        ⟨none, 1800000, .ok (some ⟨some [⟨"old", 100000000, 0, "early"⟩,
          ⟨"tx1", 100000000, 1000, "payer"⟩]⟩)⟩).response.body =
        .confirmed tx.transaction_id (tx.quant / 1000000) tx.block_timestamp tx.from_address ∧
      ∀ h amt ts s, (handler ⟨"POST", some (some 100)⟩
        ⟨none, 1800000, .ok (some ⟨some [⟨"old", 100000000, 0, "early"⟩,
          ⟨"tx1", 100000000, 1000, "payer"⟩]⟩)⟩).response.body = .confirmed h amt ts s →
        ¬ ts ≤ (1800000 : ℚ) - 1800000 :=
  have hs : (handler ⟨"POST", some (some 100)⟩
      ⟨none, 1800000, .ok (some ⟨some [⟨"old", 100000000, 0, "early"⟩,
        ⟨"tx1", 100000000, 1000, "payer"⟩]⟩)⟩).response.body.success = some true := by
    rw [handler_of_data "POST" (some 100) _ ⟨some [⟨"old", 100000000, 0, "early"⟩,
      ⟨"tx1", 100000000, 1000, "payer"⟩]⟩ (by decide) rfl]
    norm_num [answer, matchLoop, withinTolerance, Body.success]
  ⟨hs, only_recent_transfers_confirm _ _ hs⟩

/-- With `amount <= 0` the strict tolerance test fails for every received amount. -/
theorem withinTolerance_of_nonpos (r amount : ℚ) (hle : amount ≤ 0) :
    withinTolerance r (some amount) = false := by
  cases hwt : withinTolerance r (some amount) with
  | false => rfl
  | true =>
    rw [withinTolerance_some] at hwt
    have h0 : (0 : ℚ) ≤ |r - amount| := abs_nonneg _
    have h1 : 0.01 * amount ≤ 0 := mul_nonpos_of_nonneg_of_nonpos (by norm_num) hle
    linarith

/-- With `amount <= 0` the loop runs to the end of every list. -/
theorem matchLoop_of_nonpos (amount t : ℚ) (txs : List Transfer) (hle : amount ≤ 0) :
    matchLoop (some amount) t txs = none := by
  rw [matchLoop_eq_none_iff]
  intro tx _ hp
  have h := withinTolerance_of_nonpos (tx.quant / 1000000) amount hle
  rw [hp.2] at h
  cases h

/-- C10: a non-positive expected amount is never confirmed.  For every
`amount <= 0` and every outcome of the lookup (any list, any timestamps, any
quantities), the handler answers `success: false`, because the strict
tolerance test fails for every transfer; when the lookup returned data the
answer is the 200 response `No matching transaction found`. -/
theorem nonpositive_amount_never_confirmed (method : String) (w : World) (amount : ℚ)
    (hm : method ≠ "OPTIONS") (hle : amount ≤ 0) :
    (handler ⟨method, some (some amount)⟩ w).response.body.success = some false ∧
    (∀ r, withinTolerance r (some amount) = false) ∧
    (∀ data, w.tronscan = .ok (some data) →
      (handler ⟨method, some (some amount)⟩ w).response = ⟨200, .noMatch⟩) := by
  have hdata : ∀ data, w.tronscan = .ok (some data) →
      (handler ⟨method, some (some amount)⟩ w).response = ⟨200, .noMatch⟩ := by
    intro data hw
    rw [handler_of_data method (some amount) w data hm hw, answer_eq,
      matchLoop_of_nonpos amount _ _ hle]
  refine ⟨?_, fun r => withinTolerance_of_nonpos r amount hle, hdata⟩
  cases hw : w.tronscan with
  | error e => simp [handler, tryBlock, hm, hw, Body.success]
  | ok od =>
    cases od with
    | none => simp [handler, tryBlock, hm, hw, Body.success]
    | some data =>
      rw [hdata data hw]
      rfl

theorem nonpositive_amount_never_confirmed_witness :
    ("POST" ≠ "OPTIONS" ∧ (-5 : ℚ) ≤ 0) ∧
    (handler ⟨"POST", some (some (-5))⟩
      ⟨none, 1800000, .ok (some ⟨some [⟨"tx1", 5000000, 1000, "payer"⟩]⟩)⟩).response.body.success
        = some false :=
  ⟨⟨by decide, by norm_num⟩,
    (nonpositive_amount_never_confirmed "POST"
      ⟨none, 1800000, .ok (some ⟨some [⟨"tx1", 5000000, 1000, "payer"⟩]⟩)⟩ (-5)
      (by decide) (by norm_num)).1⟩

end VerifyCrypto

/-! ## The M-Pesa handler -/

namespace Math

end Math

namespace MpesaCallback

end MpesaCallback

namespace MpesaCallback

end MpesaCallback

namespace MpesaCallback

end MpesaCallback

namespace MpesaCallback

end MpesaCallback

namespace MpesaCallback

end MpesaCallback
